import Mathlib

/-!
Verification development for the forever-journal generator
(`forever_journal.py`).  The Python source is shallowly embedded below:
pure functions become Lean functions on `Nat`/`Int`/`Rat`, the mutable
`physical_page_count` counter becomes explicit state passing, and code
that can raise an exception returns `Except`/`Option`.
-/

/-! ## Calendar utilities -/

/-- `calendar.isleap(year)`: Gregorian leap-year test. -/
def isLeap (y : ℕ) : Bool :=
  y % 4 == 0 && (y % 100 != 0 || y % 400 == 0)

/-- `calendar.monthrange(year, month)[1]`: number of days in the month.
Total on all of `ℕ`; only `1 ≤ m ≤ 12` corresponds to the library call. -/
def daysInMonth (y m : ℕ) : ℕ :=
  if m = 2 then (if isLeap y then 29 else 28)
  else if m = 4 ∨ m = 6 ∨ m = 9 ∨ m = 11 then 30
  else 31

/-- The date-independent part of Zeller's congruence for `(y, m)`:
`pyWeekday y m d = ((d + zellerRest y m) % 7 + 5) % 7` is then the
Gregorian day of week with Monday = 0, exactly the convention of
`datetime.date(y, m, d).weekday()` and of `calendar.monthcalendar`.
January and February are treated as months 13/14 of the previous year. -/
def zellerRest (y m : ℕ) : ℕ :=
  let mz := if m < 3 then m + 12 else m
  let yz := if m < 3 then y - 1 else y
  let K := yz % 100
  let J := yz / 100
  (13 * (mz + 1)) / 5 + K + K / 4 + J / 4 + 5 * J

/-- Day of week (Monday = 0 … Sunday = 6), as used throughout the source
via `datetime`/`calendar`.  Valid for Gregorian dates with `y ≥ 1`. -/
def pyWeekday (y m d : ℕ) : ℕ :=
  ((d + zellerRest y m) % 7 + 5) % 7

/-- The list comprehension in `get_nth_weekday_of_month`:
`[week[weekday_idx] for week in calendar.monthcalendar(year, month)
  if week[weekday_idx] != 0]`, i.e. the days of the month falling on
weekday `w`, in increasing order. -/
def occurrencesOf (y m w : ℕ) : List ℕ :=
  (((List.range (daysInMonth y m)).map (fun i => i + 1)).filter
    (fun d => pyWeekday y m d == w))

/-- `get_nth_weekday_of_month(year, month, weekday_idx, n)`.
`n > 0` indexes `days[n-1]` when `n <= len(days)`; otherwise the code
falls through to the `else` branch which, guarded by
`abs(n) <= len(days)`, evaluates `days[n]` with Python index semantics
(negative indices count from the end, `n = 0` is the first element).
Out-of-range `n` returns `None`. -/
def get_nth_weekday_of_month (year month weekday_idx : ℕ) (n : ℤ) : Option ℕ :=
  let days := occurrencesOf year month weekday_idx
  if 0 < n then
    if n ≤ (days.length : ℤ) then days[n.toNat - 1]? else none
  else
    if n.natAbs ≤ days.length then
      days[(if n < 0 then ((days.length : ℤ) + n).toNat else n.toNat)]?
    else none

/-- `calculate_easter(year)`: the closed-form Western Easter computation
of the source, verbatim.  All intermediate values are non-negative, so
`ℕ` arithmetic agrees with Python's. -/
def calculate_easter (year : ℕ) : ℕ × ℕ :=
  let a := year % 19
  let b := year / 100
  let c := year % 100
  let d := b / 4
  let e := b % 4
  let f := (b + 8) / 25
  let g := (b - f + 1) / 3
  let h := (19 * a + b - d - g + 15) % 30
  let i := c / 4
  let k := c % 4
  let l := (32 + 2 * e + 2 * i - h - k) % 7
  let m := (a + 11 * h + 22 * l) / 451
  let month := (h + l - 7 * m + 114) / 31
  let day := ((h + l - 7 * m + 114) % 31) + 1
  (month, day)

/-- Modelled from the spec: the standard "anonymous Gregorian" (Meeus /
Jones / Butcher) Easter algorithm, written from its textbook
presentation, to be compared with the source's `calculate_easter`. -/
def anonymousGregorianEaster (year : ℕ) : ℕ × ℕ :=
  let goldenNum := year % 19
  let century := year / 100
  let yearOfCentury := year % 100
  let centuryLeapSkips := century / 4
  let centuryRem := century % 4
  let moonCorr := (century + 8) / 25
  let moonShift := (century - moonCorr + 1) / 3
  let epact := (19 * goldenNum + century - centuryLeapSkips - moonShift + 15) % 30
  let quarters := yearOfCentury / 4
  let yearRem := yearOfCentury % 4
  let weekdayShift := (32 + 2 * centuryRem + 2 * quarters - epact - yearRem) % 7
  let corr := (goldenNum + 11 * epact + 22 * weekdayShift) / 451
  ((epact + weekdayShift - 7 * corr + 114) / 31,
   ((epact + weekdayShift - 7 * corr + 114) % 31) + 1)

/-- `calculate_election_day(year)`: Tuesday after the first Monday of
November.  The source computes `first_monday + 1`, which would raise a
`TypeError` if `get_nth_weekday_of_month` returned `None`; that failure
is modelled as `none`. -/
def calculate_election_day (year : ℕ) : Option (ℕ × ℕ) :=
  (get_nth_weekday_of_month year 11 0 1).map (fun d => (11, d + 1))

/-! ## Rule-string parsing (`parse_rule`) -/

/-- Python `str.split()` with no separator: split on whitespace runs,
discarding empty fragments.  Implemented over the character list. -/
def pySplitAux : List Char → List Char → List String
  | cur, [] => if cur.isEmpty then [] else [String.mk cur.reverse]
  | cur, c :: rest =>
    if c.isWhitespace then
      if cur.isEmpty then pySplitAux [] rest
      else String.mk cur.reverse :: pySplitAux [] rest
    else pySplitAux (c :: cur) rest

def pySplitWhitespace (s : String) : List String :=
  pySplitAux [] s.data

/-- Python `str[:3]`. -/
def pyTake3 (s : String) : String :=
  String.mk (s.data.take 3)

/-- Python `str.lower()` (ASCII case folding, which covers the tokens
the source compares against). -/
def pyLower (s : String) : String :=
  String.mk (s.data.map Char.toLower)

/-- Python `str.title()`: uppercase every letter that follows a
non-letter, lowercase the rest (ASCII). -/
def pyTitleAux : Bool → List Char → List Char
  | _, [] => []
  | prevAlpha, c :: cs =>
    (if prevAlpha then c.toLower else c.toUpper) :: pyTitleAux c.isAlpha cs

def pyTitle (s : String) : String :=
  String.mk (pyTitleAux false s.data)

/-- The dict comprehension
`{m: i for i, m in enumerate(calendar.month_abbr) if m}`. -/
def month_map (s : String) : Option ℕ :=
  ([("Jan", 1), ("Feb", 2), ("Mar", 3), ("Apr", 4), ("May", 5), ("Jun", 6),
    ("Jul", 7), ("Aug", 8), ("Sep", 9), ("Oct", 10), ("Nov", 11),
    ("Dec", 12)] : List (String × ℕ)).lookup s

/-- The literal weekday dict of `parse_rule`. -/
def day_map (s : String) : Option ℕ :=
  ([("Mon", 0), ("Tue", 1), ("Wed", 2), ("Thu", 3), ("Fri", 4), ("Sat", 5),
    ("Sun", 6)] : List (String × ℕ)).lookup s

/-- Python `int(s[0])`: the numeric value of the first character when it
is an ASCII digit, `none` when `int` would raise `ValueError` (or the
string is empty, where indexing itself raises). -/
def firstCharDigitVal (s : String) : Option ℤ :=
  match s.data with
  | [] => none
  | c :: _ => if c.isDigit then some ((c.toNat - 48 : ℕ) : ℤ) else none

/-- `parse_rule(rule, year)`.  Returns `Except.error` exactly where the
Python function raises (the ordinal branch `int(nth_str[0])`, and the
unreachable `None + 1` of the election branch); otherwise `.ok` of the
`(month, day)` pair, each component optional as in the source. -/
def parse_rule (rule : String) (year : ℕ) :
    Except String (Option ℕ × Option ℕ) :=
  if rule = "easter" then
    .ok (some (calculate_easter year).1, some (calculate_easter year).2)
  else if rule = "election" then
    match calculate_election_day year with
    | some md => .ok (some md.1, some md.2)
    | none => .error "TypeError"
  else
    match pySplitWhitespace rule with
    | [nthStr, dayStr, monthStr] =>
      match month_map (pyTitle (pyTake3 monthStr)) with
      | none => .ok (none, none)
      | some month =>
        match day_map (pyTitle (pyTake3 dayStr)) with
        | none => .ok (none, none)
        | some weekday =>
          if pyLower nthStr = "last" then
            .ok (some month, get_nth_weekday_of_month year month weekday (-1))
          else
            match firstCharDigitVal nthStr with
            | none => .error "ValueError"
            | some n =>
              .ok (some month, get_nth_weekday_of_month year month weekday n)
    | _ => .ok (none, none)

/-- Convenience accessor used by the event resolver below: the value of
`parse_rule` in the non-raising case.  Every rule actually configured in
`SPECIAL_DAYS` parses without raising. -/
def parse_rule_ok (rule : String) (year : ℕ) : Option ℕ × Option ℕ :=
  match parse_rule rule year with
  | .ok v => v
  | .error _ => (none, none)

/-! ## Special-day configuration and event resolver -/

/-- An entry of `SPECIAL_DAYS["annual"]`: either fixed `month`/`day`
keys or a floating `rule` string. -/
inductive AnnualSpec
  | fixed (month day : ℕ)
  | floating (rule : String)
deriving DecidableEq

structure AnnualEvent where
  name : String
  spec : AnnualSpec
deriving DecidableEq

/-- An entry of the dated categories, with the ISO `date` string already
split into its year/month/day fields (the source does
`item["date"].split("-")` and `int` on each part). -/
structure DatedEvent where
  name : String
  eyear : ℕ
  emonth : ℕ
  eday : ℕ
deriving DecidableEq

def SPECIAL_DAYS_annual : List AnnualEvent :=
  [⟨"New Year\x27s Day", .fixed 1 1⟩,
   ⟨"MLK Day", .floating "3rd Mon Jan"⟩,
   ⟨"Valentine\x27s Day", .fixed 2 14⟩,
   ⟨"President\x27s Day", .floating "3rd Mon Feb"⟩,
   ⟨"St. Patrick\x27s Day", .fixed 3 17⟩,
   ⟨"Easter", .floating "easter"⟩,
   ⟨"Mother\x27s Day", .floating "2nd Sun May"⟩,
   ⟨"Memorial Day", .floating "last Mon May"⟩,
   ⟨"Father\x27s Day", .floating "3rd Sun Jun"⟩,
   ⟨"Juneteenth", .fixed 6 19⟩,
   ⟨"Independence Day", .fixed 7 4⟩,
   ⟨"Labor Day", .floating "1st Mon Sep"⟩,
   ⟨"Columbus Day", .floating "2nd Mon Oct"⟩,
   ⟨"Halloween", .fixed 10 31⟩,
   ⟨"Election Day", .floating "election"⟩,
   ⟨"Veterans Day", .fixed 11 11⟩,
   ⟨"Thanksgiving", .floating "4th Thu Nov"⟩,
   ⟨"Christmas", .fixed 12 25⟩]

def SPECIAL_DAYS_birthdays : List DatedEvent :=
  [⟨"Nathan", 1968, 11, 29⟩, ⟨"Dana", 1968, 9, 26⟩,
   ⟨"Benjamin", 1995, 8, 18⟩, ⟨"Thaddeus", 1996, 11, 30⟩,
   ⟨"Eli", 2000, 3, 30⟩, ⟨"Isaac", 2003, 8, 28⟩,
   ⟨"Lydia", 2005, 1, 19⟩, ⟨"Keren", 2007, 9, 11⟩,
   ⟨"Aaron", 1971, 2, 28⟩, ⟨"Esther", 1973, 1, 24⟩,
   ⟨"Rachel", 1975, 8, 16⟩, ⟨"Beth", 1978, 10, 7⟩,
   ⟨"Sarah", 1984, 3, 26⟩, ⟨"Bill", 1943, 3, 9⟩,
   ⟨"Pat", 1945, 4, 15⟩, ⟨"Keith", 1949, 10, 25⟩,
   ⟨"Judy", 1950, 11, 26⟩, ⟨"Amy", 1971, 4, 19⟩,
   ⟨"Monique", 1996, 9, 28⟩, ⟨"Luci & True", 2023, 3, 21⟩,
   ⟨"Tommy", 2024, 7, 23⟩, ⟨"Thaddeus II", 2025, 10, 11⟩]

def SPECIAL_DAYS_anniversaries : List DatedEvent :=
  [⟨"Nathan & Dana", 1994, 6, 30⟩, ⟨"Bill & Pat", 1967, 7, 7⟩,
   ⟨"Keith & Judy", 1967, 11, 18⟩, ⟨"Ben & Mo", 2019, 8, 2⟩,
   ⟨"Tad & Missa", 2022, 12, 21⟩, ⟨"Aub & Tom", 2024, 8, 16⟩]

def SPECIAL_DAYS_education : List DatedEvent :=
  [⟨"Westwood HS", 1986, 6, 6⟩, ⟨"UT Austin BS ECE", 1993, 8, 16⟩,
   ⟨"St. Edwards MS CIS", 2014, 12, 13⟩, ⟨"UT Dallas PhD TE", 2026, 5, 14⟩]

def SPECIAL_DAYS_other : List DatedEvent :=
  [⟨"Japan Fukuoka Mission", 1988, 8, 24⟩, ⟨"Texas Return", 2011, 12, 20⟩,
   ⟨"Wylie Move", 2015, 6, 19⟩]

/-- `WHIMSY_STYLES`: name/category to `(icon, color)`. -/
def WHIMSY_STYLES (s : String) : Option (String × String) :=
  ([("New Year\x27s Day", ("\\faGlassCheers", "purple")),
    ("MLK Day", ("\\faHandsHelping", "black")),
    ("Valentine\x27s Day", ("\\faHeart", "magenta")),
    ("President\x27s Day", ("\\faFlagUsa", "blue")),
    ("St. Patrick\x27s Day", ("\\faLeaf", "green")),
    ("Easter", ("\\faEgg", "violet")),
    ("Mother\x27s Day", ("\\faHeart", "pink")),
    ("Memorial Day", ("\\faFlagUsa", "blue")),
    ("Father\x27s Day", ("\\faUserTie", "blue")),
    ("Juneteenth", ("\\faStar", "black")),
    ("Independence Day", ("\\faStar", "blue")),
    ("Labor Day", ("\\faHammer", "brown")),
    ("Columbus Day", ("\\faShip", "blue")),
    ("Halloween", ("\\faGhost", "orange")),
    ("Election Day", ("\\faVoteYea", "blue")),
    ("Veterans Day", ("\\faMedal", "olive")),
    ("Thanksgiving", ("\\faUtensils", "brown")),
    ("Christmas", ("\\faTree", "red")),
    ("Birthday", ("\\faBirthdayCake", "teal")),
    ("Anniversary", ("\\faRing", "orange")),
    ("Education", ("\\faGraduationCap", "blue")),
    ("Other", ("\\faGlobe", "teal"))] :
      List (String × String × String)).lookup s

/-- The f-string `rf"\textcolor{{{color}}}{{{icon} \hspace{{1pt}} {name}}}"`
(literal braces written as their codepoints). -/
def textcolorWrap (color icon name : String) : String :=
  "\\textcolor\x7b" ++ color ++ "\x7d\x7b" ++ icon ++
    " \\hspace\x7b1pt\x7d " ++ name ++ "\x7d"

/-- The whimsy decoration applied to a label: looked up under `key`
(the event's own name for annual events, the category name for dated
ones), identity when whimsy is off or no style exists. -/
def decorate (useWhimsy : Bool) (key name : String) : String :=
  if useWhimsy then
    match WHIMSY_STYLES key with
    | some st => textcolorWrap st.2 st.1 name
    | none => name
  else name

/-- Match test of the annual loop of `get_special_events`: fixed entries
compare `month`/`day` directly, floating entries compare the
`parse_rule` result (a `None` component never equals an `int`). -/
def annualMatch (e : AnnualEvent) (year month day : ℕ) : Bool :=
  match e.spec with
  | .fixed m d => m == month && d == day
  | .floating r =>
    (parse_rule_ok r year).1 == some month &&
      (parse_rule_ok r year).2 == some day

def annualEntries (useWhimsy : Bool) (year month day : ℕ) : List String :=
  (SPECIAL_DAYS_annual.filter (fun e => annualMatch e year month day)).map
    (fun e => decorate useWhimsy e.name e.name)

/-- Match test of the dated-category loops: month and day equal, and
`years_elapsed = year - event_year >= 0` (computed in `ℤ`, as Python
ints go negative before the event's year). -/
def datedMatch (year month day : ℕ) (e : DatedEvent) : Bool :=
  e.emonth == month && e.eday == day &&
    decide (0 ≤ (year : ℤ) - (e.eyear : ℤ))

/-- The f-string `f"{name} ({years_elapsed}y)"` with the whimsy wrapper
already applied to `name`. -/
def datedLabel (useWhimsy : Bool) (key : String) (year : ℕ)
    (e : DatedEvent) : String :=
  decorate useWhimsy key e.name ++ " (" ++
    toString ((year : ℤ) - (e.eyear : ℤ)).toNat ++ "y)"

def datedEntries (useWhimsy : Bool) (key : String) (events : List DatedEvent)
    (year month day : ℕ) : List String :=
  (events.filter (datedMatch year month day)).map
    (datedLabel useWhimsy key year)

/-- `get_special_events(year, month, day, use_whimsy)`: the five
category loops appended in source order. -/
def get_special_events (year month day : ℕ) (use_whimsy : Bool) :
    List String :=
  annualEntries use_whimsy year month day
    ++ datedEntries use_whimsy "Birthday" SPECIAL_DAYS_birthdays year month day
    ++ datedEntries use_whimsy "Anniversary" SPECIAL_DAYS_anniversaries year month day
    ++ datedEntries use_whimsy "Education" SPECIAL_DAYS_education year month day
    ++ datedEntries use_whimsy "Other" SPECIAL_DAYS_other year month day

/-- The events an invocation of `get_special_events` selects, before any
label rendering: used to state that the whimsy flag is display-only. -/
inductive SelectedEvent
  | annual (e : AnnualEvent)
  | dated (key : String) (e : DatedEvent)
deriving DecidableEq

def selectedEvents (year month day : ℕ) : List SelectedEvent :=
  (SPECIAL_DAYS_annual.filter (fun e => annualMatch e year month day)).map .annual
    ++ (SPECIAL_DAYS_birthdays.filter (datedMatch year month day)).map (.dated "Birthday")
    ++ (SPECIAL_DAYS_anniversaries.filter (datedMatch year month day)).map (.dated "Anniversary")
    ++ (SPECIAL_DAYS_education.filter (datedMatch year month day)).map (.dated "Education")
    ++ (SPECIAL_DAYS_other.filter (datedMatch year month day)).map (.dated "Other")

def renderSelected (useWhimsy : Bool) (year : ℕ) : SelectedEvent → String
  | .annual e => decorate useWhimsy e.name e.name
  | .dated key e => datedLabel useWhimsy key year e

/-! ## Pagination / parity engine -/

/-- `ensure_parity(logical_page_num)` acting on `physical_page_count`:
writes `\null\newpage` and increments the counter exactly when the
parity of the next physical page differs from that of the target
logical page number. -/
def ensure_parity (physical_page_count logical_page_num : ℕ) : ℕ :=
  if logical_page_num % 2 ≠ (physical_page_count + 1) % 2 then
    physical_page_count + 1
  else physical_page_count

def START_YEAR : ℕ := 2026

/-- The `while not calendar.isleap(ref_year): ref_year += 1` loop,
given fuel (a leap year occurs within 8 years of any start). -/
def firstLeapFrom : ℕ → ℕ → ℕ
  | 0, y => y
  | fuel + 1, y => if isLeap y then y else firstLeapFrom fuel (y + 1)

def refYear : ℕ := firstLeapFrom 8 START_YEAR

/-- One daily page chunk of the month loop in full (non-test) mode:
`ensure_parity(page_num)`, emit the page, increment both counters. -/
def dailyLoop : ℕ → ℕ × ℕ → ℕ × ℕ
  | 0, st => st
  | k + 1, st => dailyLoop k (st.1 + 1, ensure_parity st.2 st.1 + 1)

/-- One month of the full-mode generation pass, acting on the state
`(page_num, physical_page_count)`: `generate_month_summary` (force an
odd page, emit the summary) followed by the daily chunks.  Also reports
`(incoming page_num, summary \setcounter page number, filler pages
written while aligning)`. -/
def monthStep (daysPerPage : ℕ) (st : ℕ × ℕ) (days : ℕ) :
    (ℕ × ℕ) × (ℕ × ℕ × ℕ) :=
  let pn := st.1
  let ppc := st.2
  let aligned :=
    if pn % 2 = 0 then (pn + 1, ensure_parity ppc (pn + 1)) else (pn, ppc)
  let ppc2 := ensure_parity aligned.2 aligned.1
  let fillers := ppc2 - ppc
  let afterSummary := (aligned.1 + 1, ppc2 + 1)
  let chunks := (days + daysPerPage - 1) / daysPerPage
  (dailyLoop chunks afterSummary, (pn, aligned.1, fillers))

/-- State after the title page: `ensure_parity(1)` at count 0, emit the
title (count becomes 1), `page_num = 2`. -/
def initState : ℕ × ℕ := (2, ensure_parity 0 1 + 1)

/-- The per-month records `(incoming page_num, summary page, fillers)`
of a full (non-test) generation pass over months 1..12. -/
def runMonths (daysPerPage : ℕ) : List (ℕ × ℕ × ℕ) :=
  ((List.range 12).foldl
    (fun acc i =>
      let r := monthStep daysPerPage acc.1 (daysInMonth refYear (i + 1))
      (r.1, acc.2 ++ [r.2]))
    ((initState, []) : (ℕ × ℕ) × List (ℕ × ℕ × ℕ))).2

/-! ## Layout geometry -/

inductive PaperKey
  | A4
  | US_LETTER
  | JIS_B5
deriving DecidableEq

def paperW : PaperKey → ℚ
  | .A4 => 210
  | .US_LETTER => 215.9
  | .JIS_B5 => 182

def paperH : PaperKey → ℚ
  | .A4 => 297
  | .US_LETTER => 279.4
  | .JIS_B5 => 257

def TARGET_MARGIN_INNER : ℚ := 15
def TARGET_MARGIN_OUTER : ℚ := 9
def TARGET_MARGIN_TOP : ℚ := 5
def TARGET_MARGIN_BOTTOM : ℚ := 12
def HEADER_H : ℚ := 6
def COLUMN_GUTTER : ℚ := 4

structure DerivedGeometry where
  calcTextWidth : ℚ
  estimatedTextHeight : ℚ
  usableH : ℚ
  blockH : ℚ
  lineSpacing : ℚ
  colWidth : ℚ
deriving DecidableEq

/-- The derived-geometry computation of the module level and of
`generate_tex`: `CALC_TEXT_WIDTH`, `ESTIMATED_TEXT_HEIGHT`,
`USABLE_H = ETH - HEADER_H - 2`, `BLOCK_H = USABLE_H / NUM_YEARS`,
`line_spacing = BLOCK_H / NUM_WRITING_LINES`, and `COL_WIDTH`.
`none` models the `ZeroDivisionError` Python raises when a divisor is
zero; no other validation exists anywhere in the source. -/
def derivedGeometry (paper : PaperKey) (numYears numLines : ℤ)
    (twoDaysPerPage : Bool) : Option DerivedGeometry :=
  if numYears = 0 ∨ numLines = 0 then none
  else
    let ctw := paperW paper - TARGET_MARGIN_INNER - TARGET_MARGIN_OUTER
    let eth := paperH paper - TARGET_MARGIN_TOP - TARGET_MARGIN_BOTTOM
    let usable := eth - HEADER_H - 2
    let block := usable / (numYears : ℚ)
    let ls := block / (numLines : ℚ)
    let cw := if twoDaysPerPage then (ctw - COLUMN_GUTTER) / 2 else ctw
    some ⟨ctw, eth, usable, block, ls, cw⟩

/-- The exact condition under which `parse_rule` raises: a three-token
rule (other than the two keywords) whose month and weekday tokens
resolve but whose ordinal token is neither `"last"` nor begins with a
digit — `int(nth_str[0])` then raises `ValueError`. -/
def ruleRaisesOn (rule : String) : Prop :=
  rule ≠ "easter" ∧ rule ≠ "election" ∧
  ∃ a b c, pySplitWhitespace rule = [a, b, c] ∧
    (month_map (pyTitle (pyTake3 c))).isSome = true ∧
    (day_map (pyTitle (pyTake3 b))).isSome = true ∧
    pyLower a ≠ "last" ∧ firstCharDigitVal a = none

/-! ## Helper lemmas -/

lemma ensure_parity_noop (ppc pn : ℕ) (h : (ppc + 1) % 2 = pn % 2) :
    ensure_parity ppc pn = ppc := by
  unfold ensure_parity
  simp [h.symm]

lemma ensure_parity_post (ppc pn : ℕ) :
    (ensure_parity ppc pn + 1) % 2 = pn % 2 := by
  unfold ensure_parity
  split <;> omega

lemma foldl_ensure_parity_fixed (t : ℕ) :
    ∀ (ts : List ℕ) (acc : ℕ), (acc + 1) % 2 = t % 2 →
      (∀ u ∈ ts, u % 2 = t % 2) → List.foldl ensure_parity acc ts = acc
  | [], _, _, _ => rfl
  | u :: ts, acc, hacc, hts => by
    have hu : u % 2 = t % 2 := hts u (List.mem_cons_self u ts)
    rw [List.foldl_cons, ensure_parity_noop acc u (by omega)]
    exact foldl_ensure_parity_fixed t ts acc hacc
      (fun v hv => hts v (List.mem_cons_of_mem u hv))

lemma weekday_residue_hit (R w : ℕ) (hw : w < 7) :
    ∃ d, 1 ≤ d ∧ d ≤ 7 ∧ ((d + R) % 7 + 5) % 7 = w :=
  ⟨(w + 13 - (R + 5) % 7) % 7 + 1, by omega, by omega, by omega⟩

lemma daysInMonth_ge (y m : ℕ) : 28 ≤ daysInMonth y m := by
  unfold daysInMonth
  split
  · split <;> omega
  · split <;> omega

lemma occurrencesOf_ne_nil (y m w : ℕ) (hw : w < 7) :
    occurrencesOf y m w ≠ [] := by
  obtain ⟨d, h1, h7, hwk⟩ := weekday_residue_hit (zellerRest y m) w hw
  have hd : d ∈ occurrencesOf y m w := by
    unfold occurrencesOf
    refine List.mem_filter.mpr ⟨?_, ?_⟩
    · refine List.mem_map.mpr ⟨d - 1, List.mem_range.mpr ?_, by omega⟩
      have := daysInMonth_ge y m
      omega
    · have : pyWeekday y m d = w := hwk
      simp [this]
  intro h
  rw [h] at hd
  exact absurd hd (List.not_mem_nil d)

lemma occurrencesOf_length_pos (y m w : ℕ) (hw : w < 7) :
    0 < (occurrencesOf y m w).length :=
  List.length_pos.mpr (occurrencesOf_ne_nil y m w hw)

lemma get_first_monday_isSome (y : ℕ) :
    ∃ d, get_nth_weekday_of_month y 11 0 1 = some d := by
  have hlen : 0 < (occurrencesOf y 11 0).length :=
    occurrencesOf_length_pos y 11 0 (by omega)
  unfold get_nth_weekday_of_month
  rw [if_pos (by omega : (0:ℤ) < 1), if_pos (by exact_mod_cast hlen)]
  exact ⟨_, List.getElem?_eq_getElem (by omega)⟩

lemma calculate_election_day_isSome (y : ℕ) :
    ∃ md, calculate_election_day y = some md := by
  obtain ⟨d, hd⟩ := get_first_monday_isSome y
  exact ⟨(11, d + 1), by simp [calculate_election_day, hd]⟩

/-! ## Claim theorems -/

/-- Claim C1: for every state of the pagination engine (any value of
`physical_page_count`) and every target logical page number, a single
call to `ensure_parity` increments the counter by exactly 0 or 1 — 0
precisely when the parity already matches (the minimum needed) — and
afterwards `physical_page_count + 1` has the parity of the target. -/
theorem ensure_parity_minimal (ppc pn : ℕ) :
    ((ppc + 1) % 2 = pn % 2 → ensure_parity ppc pn = ppc) ∧
    ((ppc + 1) % 2 ≠ pn % 2 → ensure_parity ppc pn = ppc + 1) ∧
    (ensure_parity ppc pn + 1) % 2 = pn % 2 := by
  refine ⟨fun h => ensure_parity_noop ppc pn h, fun h => ?_,
    ensure_parity_post ppc pn⟩
  unfold ensure_parity
  rw [if_pos (by omega)]

theorem ensure_parity_minimal_witness :
    ensure_parity 2 1 = 2 ∧ ensure_parity 2 2 = 3 :=
  ⟨(ensure_parity_minimal 2 1).1 (by decide),
   (ensure_parity_minimal 2 2).2.1 (by decide)⟩

/-- Claim C2: `ensure_parity` is idempotent — any sequence of N ≥ 1
consecutive calls whose target page numbers all share one parity leaves
`physical_page_count` equal to the result of the first call alone. -/
theorem ensure_parity_idempotent (ppc t : ℕ) (ts : List ℕ)
    (hts : ∀ u ∈ ts, u % 2 = t % 2) :
    List.foldl ensure_parity ppc (t :: ts) = ensure_parity ppc t := by
  rw [List.foldl_cons]
  exact foldl_ensure_parity_fixed t ts (ensure_parity ppc t)
    (ensure_parity_post ppc t) hts

theorem ensure_parity_idempotent_witness :
    List.foldl ensure_parity 0 [1, 3, 5] = ensure_parity 0 1 :=
  ensure_parity_idempotent 0 1 [3, 5] (by decide)

set_option maxRecDepth 40000 in
/-- Claim C3: in a full (non-test) generation pass — with either one or
two days per page — every month-summary page is assigned an odd logical
page number by `generate_month_summary`, and exactly one filler page is
written during its alignment precisely when the incoming `page_num` is
even. -/
theorem month_summaries_start_odd :
    ((runMonths 1).all fun r =>
      r.2.1 % 2 == 1 && (r.2.2 == if r.1 % 2 == 0 then 1 else 0)) = true ∧
    ((runMonths 2).all fun r =>
      r.2.1 % 2 == 1 && (r.2.2 == if r.1 % 2 == 0 then 1 else 0)) = true := by
  decide

set_option maxRecDepth 4000 in
/-- Claim C4 (counterexample): `parse_rule` does not return normally on
every rule string — the ordinal token of `"xth Mon Jan"` makes
`int(nth_str[0])` raise `ValueError`. -/
theorem parse_rule_raises_counterexample :
    parse_rule "xth Mon Jan" 2026 = Except.error "ValueError" := rfl

/-- Claim C4 (amended): `parse_rule` returns normally for every rule
string except exactly those three-token rules whose month and weekday
tokens are valid but whose ordinal token is neither `"last"` nor starts
with a digit; on those it raises `ValueError`. -/
theorem parse_rule_no_raise_amended (rule : String) (year : ℕ) :
    (parse_rule rule year).isOk = true ↔ ¬ ruleRaisesOn rule := by
  unfold ruleRaisesOn
  by_cases h1 : rule = "easter"
  · simp [parse_rule, h1, Except.isOk, Except.toBool]
  by_cases h2 : rule = "election"
  · obtain ⟨md, hmd⟩ := calculate_election_day_isSome year
    simp [parse_rule, h1, h2, hmd, Except.isOk, Except.toBool]
  rcases hsp : pySplitWhitespace rule with _ | ⟨a, _ | ⟨b, _ | ⟨c, _ | rest⟩⟩⟩
  · simp [parse_rule, h1, h2, hsp, Except.isOk, Except.toBool]
  · simp [parse_rule, h1, h2, hsp, Except.isOk, Except.toBool]
  · simp [parse_rule, h1, h2, hsp, Except.isOk, Except.toBool]
  · rcases hm : month_map (pyTitle (pyTake3 c)) with _ | month
    · simp [parse_rule, h1, h2, hsp, hm, Except.isOk, Except.toBool]
    rcases hd : day_map (pyTitle (pyTake3 b)) with _ | wk
    · simp [parse_rule, h1, h2, hsp, hm, hd, Except.isOk, Except.toBool]
    by_cases hl : pyLower a = "last"
    · simp [parse_rule, h1, h2, hsp, hm, hd, hl, Except.isOk, Except.toBool]
    rcases hdg : firstCharDigitVal a with _ | k
    · simp [parse_rule, h1, h2, hsp, hm, hd, hl, hdg, Except.isOk, Except.toBool]
    · simp [parse_rule, h1, h2, hsp, hm, hd, hl, hdg, Except.isOk, Except.toBool]
  · simp [parse_rule, h1, h2, hsp, Except.isOk, Except.toBool]

theorem parse_rule_no_raise_amended_witness :
    (parse_rule "3rd Mon Jan" 2026).isOk = true :=
  (parse_rule_no_raise_amended "3rd Mon Jan" 2026).mpr (by
    intro h
    obtain ⟨-, -, a, b, c, hsp, -, -, -, hdg⟩ := h
    have ha : a = "3rd" := by
      have : pySplitWhitespace "3rd Mon Jan" = ["3rd", "Mon", "Jan"] := rfl
      rw [this] at hsp
      exact (List.cons.injEq _ _ _ _ ▸ hsp).1.symm
    rw [ha] at hdg
    exact absurd hdg (by decide))

/-- Claim C6: `get_nth_weekday_of_month` selects the nth occurrence
(1-indexed) of the weekday from the start of the month for positive
`n`, counts from the end of the month for negative `n` (`-1` = last),
returns `none` when `|n|` exceeds the number of occurrences, and in
particular returns 19 for the 3rd Monday of January 2026 (MLK Day) and
25 for the last Monday of May 2026 (Memorial Day). -/
theorem nth_weekday_of_month_spec :
    (∀ (y m w : ℕ) (n : ℤ), 0 < n → n ≤ ((occurrencesOf y m w).length : ℤ) →
      get_nth_weekday_of_month y m w n = (occurrencesOf y m w)[n.toNat - 1]?) ∧
    (∀ (y m w : ℕ) (n : ℤ), n < 0 → n.natAbs ≤ (occurrencesOf y m w).length →
      get_nth_weekday_of_month y m w n =
        (occurrencesOf y m w).reverse[n.natAbs - 1]?) ∧
    (∀ (y m w : ℕ) (n : ℤ), n ≠ 0 → (occurrencesOf y m w).length < n.natAbs →
      get_nth_weekday_of_month y m w n = none) ∧
    get_nth_weekday_of_month 2026 1 0 3 = some 19 ∧
    get_nth_weekday_of_month 2026 5 0 (-1) = some 25 := by
  refine ⟨?_, ?_, ?_, by decide, by decide⟩
  · intro y m w n hn hle
    unfold get_nth_weekday_of_month
    rw [if_pos hn, if_pos hle]
  · intro y m w n hn hle
    unfold get_nth_weekday_of_month
    rw [if_neg (by omega), if_pos hle]
    have hidx : (if n < 0 then
        (((occurrencesOf y m w).length : ℤ) + n).toNat else n.toNat) =
        (occurrencesOf y m w).length - n.natAbs := by
      rw [if_pos hn]
      omega
    rw [hidx, List.getElem?_reverse (by omega)]
    have : (occurrencesOf y m w).length - 1 - (n.natAbs - 1) =
        (occurrencesOf y m w).length - n.natAbs := by omega
    rw [this]
  · intro y m w n hn hgt
    unfold get_nth_weekday_of_month
    by_cases h : 0 < n
    · rw [if_pos h, if_neg (by omega)]
    · rw [if_neg h, if_neg (by omega)]

theorem nth_weekday_of_month_spec_witness :
    get_nth_weekday_of_month 2026 1 0 2 = (occurrencesOf 2026 1 0)[1]? ∧
    get_nth_weekday_of_month 2026 1 0 (-2) =
      (occurrencesOf 2026 1 0).reverse[1]? ∧
    get_nth_weekday_of_month 2026 1 0 9 = none :=
  ⟨nth_weekday_of_month_spec.1 2026 1 0 2 (by decide) (by decide),
   nth_weekday_of_month_spec.2.1 2026 1 0 (-2) (by decide) (by decide),
   nth_weekday_of_month_spec.2.2.1 2026 1 0 9 (by decide) (by decide)⟩

/-- Claim C7: `calculate_easter` coincides with the standard anonymous
Gregorian (Western) Easter algorithm for every year, and in particular
gives (3, 31) for 2024 and (4, 20) for 2025. -/
theorem calculate_easter_matches_standard :
    (∀ year : ℕ, calculate_easter year = anonymousGregorianEaster year) ∧
    calculate_easter 2024 = (3, 31) ∧ calculate_easter 2025 = (4, 20) :=
  ⟨fun _ => rfl, by decide, by decide⟩

/-- Claim C10: calling `get_nth_weekday_of_month` with the undocumented
value `n = 0` returns the first occurrence of the weekday — the same
answer as `n = 1` — rather than `None` or an error. -/
theorem nth_weekday_zero_gives_first (y m w : ℕ) (hw : w < 7) :
    get_nth_weekday_of_month y m w 0 = get_nth_weekday_of_month y m w 1 ∧
    get_nth_weekday_of_month y m w 0 = (occurrencesOf y m w).head? ∧
    (get_nth_weekday_of_month y m w 0).isSome = true := by
  have hlen := occurrencesOf_length_pos y m w hw
  have h0 : get_nth_weekday_of_month y m w 0 = (occurrencesOf y m w)[0]? := by
    unfold get_nth_weekday_of_month
    rw [if_neg (by omega), if_pos (by omega)]
    simp
  have h1 : get_nth_weekday_of_month y m w 1 = (occurrencesOf y m w)[0]? := by
    unfold get_nth_weekday_of_month
    rw [if_pos (by omega), if_pos (by exact_mod_cast hlen)]
    simp
  refine ⟨by rw [h0, h1], by rw [h0, List.head?_eq_getElem?], ?_⟩
  rw [h0, List.getElem?_eq_getElem hlen]
  rfl

theorem nth_weekday_zero_gives_first_witness :
    get_nth_weekday_of_month 2026 1 0 0 = get_nth_weekday_of_month 2026 1 0 1 ∧
    get_nth_weekday_of_month 2026 1 0 0 = (occurrencesOf 2026 1 0).head? ∧
    (get_nth_weekday_of_month 2026 1 0 0).isSome = true :=
  nth_weekday_zero_gives_first 2026 1 0 (by decide)

/-- Claim C5 (counterexample): the configuration `num_years = -1`
(accepted by the CLI, which only requires an `int`) is not rejected:
the geometry computation succeeds and proceeds with a strictly negative
per-year block height — there is no fail-fast validation anywhere in
the source. -/
theorem geometry_negative_dimensions_accepted :
    (derivedGeometry PaperKey.A4 (-1) 6 false).isSome = true ∧
    (derivedGeometry PaperKey.A4 (-1) 6 false).map DerivedGeometry.blockH =
      some (-272) ∧
    (-272 : ℚ) < 0 := by
  have h : derivedGeometry PaperKey.A4 (-1) 6 false =
      some ⟨186, 280, 272, -272, -136/3, 186⟩ := by
    unfold derivedGeometry
    norm_num [paperW, paperH, TARGET_MARGIN_INNER, TARGET_MARGIN_OUTER,
      TARGET_MARGIN_TOP, TARGET_MARGIN_BOTTOM, HEADER_H]
  refine ⟨by rw [h]; rfl, by rw [h]; rfl, by norm_num⟩

/-- Claim C5 (amended): for every paper preset and every configuration
with `num_years ≥ 1` and `num_writing_lines ≥ 1`, all derived geometry
quantities are strictly positive; the program performs no fail-fast
validation, so non-positive counts are the only way to zero or negative
dimensions (and a zero count raises `ZeroDivisionError`). -/
theorem geometry_positive_for_valid_config (p : PaperKey) (ny nl : ℤ)
    (dpp2 : Bool) (hy : 1 ≤ ny) (hl : 1 ≤ nl) :
    ∃ g, derivedGeometry p ny nl dpp2 = some g ∧
      0 < g.calcTextWidth ∧ 0 < g.estimatedTextHeight ∧ 0 < g.usableH ∧
      0 < g.blockH ∧ 0 < g.lineSpacing ∧ 0 < g.colWidth := by
  have hyq : (0 : ℚ) < (ny : ℚ) := by
    have : (0 : ℤ) < ny := by omega
    exact_mod_cast this
  have hlq : (0 : ℚ) < (nl : ℚ) := by
    have : (0 : ℤ) < nl := by omega
    exact_mod_cast this
  rcases p <;> rcases dpp2 <;>
    { unfold derivedGeometry
      rw [if_neg (by omega)]
      exact ⟨_, rfl,
        by norm_num [paperW, TARGET_MARGIN_INNER, TARGET_MARGIN_OUTER],
        by norm_num [paperH, TARGET_MARGIN_TOP, TARGET_MARGIN_BOTTOM],
        by norm_num [paperH, TARGET_MARGIN_TOP, TARGET_MARGIN_BOTTOM, HEADER_H],
        div_pos (by norm_num [paperH, TARGET_MARGIN_TOP, TARGET_MARGIN_BOTTOM,
          HEADER_H]) hyq,
        div_pos (div_pos (by norm_num [paperH, TARGET_MARGIN_TOP,
          TARGET_MARGIN_BOTTOM, HEADER_H]) hyq) hlq,
        by norm_num [paperW, TARGET_MARGIN_INNER, TARGET_MARGIN_OUTER,
          COLUMN_GUTTER]⟩ }

theorem geometry_positive_for_valid_config_witness :
    ∃ g, derivedGeometry PaperKey.A4 10 5 true = some g ∧
      0 < g.calcTextWidth ∧ 0 < g.estimatedTextHeight ∧ 0 < g.usableH ∧
      0 < g.blockH ∧ 0 < g.lineSpacing ∧ 0 < g.colWidth :=
  geometry_positive_for_valid_config PaperKey.A4 10 5 true (by norm_num)
    (by norm_num)

/-- Claim C8: a configured dated event matching the queried month/day is
selected exactly when `year - event_year ≥ 0`; its label carries the
elapsed-year suffix `(ky)`; the birthday dated 1995-08-18 yields
"Benjamin (31y)" for the query (2026, 8, 18) and nothing at all is
returned for (1990, 8, 18). -/
theorem dated_events_elapsed_years :
    (∀ (l : List DatedEvent) (e : DatedEvent) (year : ℕ),
      e ∈ l.filter (datedMatch year e.emonth e.eday) ↔
        e ∈ l ∧ 0 ≤ (year : ℤ) - (e.eyear : ℤ)) ∧
    (∀ (w : Bool) (key : String) (year : ℕ) (e : DatedEvent),
      datedLabel w key year e = (decorate w key e.name ++ " ") ++
        ("(" ++ toString ((year : ℤ) - (e.eyear : ℤ)).toNat ++ "y)")) ∧
    (∀ (e : DatedEvent) (year : ℕ), e ∈ SPECIAL_DAYS_birthdays →
      0 ≤ (year : ℤ) - (e.eyear : ℤ) →
      datedLabel false "Birthday" year e ∈
        get_special_events year e.emonth e.eday false) ∧
    "Benjamin (31y)" ∈ get_special_events 2026 8 18 false ∧
    get_special_events 1990 8 18 false = [] := by
  refine ⟨?_, ?_, ?_, by decide, by decide⟩
  · intro l e year
    rw [List.mem_filter]
    simp [datedMatch]
  · intro w key year e
    simp only [datedLabel, String.append_assoc]
    rw [← String.append_assoc (" " : String) "("
      (toString ((year : ℤ) - (e.eyear : ℤ)).toNat ++ "y)")]
    exact rfl
  · intro e year he hy
    unfold get_special_events
    apply List.mem_append_left
    apply List.mem_append_left
    apply List.mem_append_left
    apply List.mem_append_right
    unfold datedEntries
    exact List.mem_map_of_mem _
      (List.mem_filter.mpr ⟨he, by simp [datedMatch, hy]⟩)

theorem dated_events_elapsed_years_witness :
    ((⟨"Benjamin", 1995, 8, 18⟩ : DatedEvent) ∈
      SPECIAL_DAYS_birthdays.filter (datedMatch 2026 8 18)) ∧
    datedLabel false "Birthday" 2026 ⟨"Benjamin", 1995, 8, 18⟩ ∈
      get_special_events 2026 8 18 false :=
  ⟨(dated_events_elapsed_years.1 SPECIAL_DAYS_birthdays
      ⟨"Benjamin", 1995, 8, 18⟩ 2026).mpr ⟨by decide, by decide⟩,
   dated_events_elapsed_years.2.2.1 ⟨"Benjamin", 1995, 8, 18⟩ 2026
     (by decide) (by decide)⟩

/-- Claim C9: the whimsy flag is display-only — both settings of
`use_whimsy` return the labels of one and the same selected event list,
in the same order, so the results have equal length and differ only in
per-label decoration. -/
theorem whimsy_is_display_only (year month day : ℕ) :
    get_special_events year month day true =
      (selectedEvents year month day).map (renderSelected true year) ∧
    get_special_events year month day false =
      (selectedEvents year month day).map (renderSelected false year) ∧
    (get_special_events year month day true).length =
      (get_special_events year month day false).length := by
  have h : ∀ w : Bool, get_special_events year month day w =
      (selectedEvents year month day).map (renderSelected w year) := by
    intro w
    simp [get_special_events, selectedEvents, annualEntries, datedEntries,
      renderSelected, List.map_append, List.map_map, Function.comp_def]
  refine ⟨h true, h false, ?_⟩
  rw [h true, h false]
  simp [List.length_map]
